import Mathlib

/-!
# ForcedValue (include/forcedvalue.h)

`ForcedValue<TYPE>` derives from `Value` and keeps the dynamic type of the
wrapped value equal to the template argument `TYPE`.

The header only contains the derived class.  The base class `Value`, the
enumeration `Type` and `struct _zval_struct` are declared elsewhere, so the
members of `Value` that the header calls are taken as a parameter
(`Php.Value`), and every member of `ForcedValue` is a function of that
parameter.  A member function is embedded as a function from the state of
`*this` (and of its argument) to the state afterwards, the returned reference
or the raised `Php::Exception` message, and the list of base-class members it
invoked, in order.
-/

namespace Php

/-- Referent of a returned `Value &`: the object the member was invoked on, or another one. -/
inductive Referent where
  | this
  | other
  deriving DecidableEq, Repr

/-- Argument of `operator=`: the reference is bound either to the assigned-to object
itself (`this == &value`) or to a different object, whose state it carries. -/
inductive Arg (σ : Type) where
  | self
  | other (value : σ)
  deriving DecidableEq, Repr

/-- Modelled from the spec: the base class `Value` is not part of forcedvalue.h, so the
members the header uses are parameters.  `τ` is the enumeration `Type`, `σ` the state of a
`Value` object, `H` what a `struct _zval_struct *` points to.  The base members are total
and raise nothing.

* `type`       : `Value::type() const`
* `ctor`       : `Value()`, the state of the new object
* `ctorCopy`   : `Value(const Value &)`, the state of the new object
* `ctorMove`   : `Value(Value &&)`, the new object and the argument after the move
* `ctorZval`   : `Value(struct _zval_struct *, bool)`
* `setType`    : `Value::setType(Type)`, the state afterwards and the returned reference
* `assign`     : `Value::operator=(const Value &)`, the assigned-to object afterwards
* `assignMove` : `Value::operator=(Value &&)`, the assigned-to object and the argument afterwards
* `validate`   : `Value::validate()`, the state afterwards and the returned reference -/
structure Value (τ σ H : Type) where
  type : σ → τ
  ctor : σ
  ctorCopy : σ → σ
  ctorMove : σ → σ × σ
  ctorZval : H → Bool → σ
  setType : τ → σ → σ × Referent
  assign : σ → σ → σ
  assignMove : σ → σ → σ × σ
  validate : σ → σ × Referent

/-- One invocation of a member of the base class. -/
inductive Call (τ H : Type) where
  | ctor
  | ctorCopy
  | ctorMove
  | ctorZval (zval : H) (ref : Bool)
  | setType (type : τ)
  | assign
  | assignMove
  | validate
  deriving DecidableEq, Repr

/-- Outcome of a constructor: the constructed object, or the message of the exception that
left the constructor (then there is no object), and the base members invoked. -/
structure Constructed (τ σ H : Type) where
  self : Except String σ
  calls : List (Call τ H)

/-- Outcome of a constructor taking an rvalue: as `Constructed`, with the state in which
the argument is left. -/
structure MoveConstructed (τ σ H : Type) where
  self : Except String σ
  value : σ
  calls : List (Call τ H)

/-- Outcome of a member function: the returned reference or the raised message, the state
of `*this` afterwards, and the base members invoked. -/
structure Called (τ σ H : Type) where
  ret : Except String Referent
  self : σ
  calls : List (Call τ H)

/-- Outcome of the move assignment: as `Called`, with the argument afterwards. -/
structure MoveAssigned (τ σ H : Type) where
  ret : Except String Referent
  self : σ
  value : Arg σ
  calls : List (Call τ H)

/-- Message thrown by the constructors and assignment operators (lines 47, 57, 96, 116). -/
def wrongValueMessage : String := "Assiging a wrong value type to a forced typed variable"

/-- Message thrown by `setType` (line 79). -/
def forcedTypeMessage : String := "Variable has a forced type"

namespace ForcedValue

variable {τ σ H : Type} [DecidableEq τ]

/-- `virtual Value &setType(Type type) override` (lines 76-83). -/
def setType (B : Value τ σ H) (TYPE : τ) (type : τ) (self : σ) : Called τ σ H :=
  if type ≠ TYPE then
    ⟨.error forcedTypeMessage, self, []⟩
  else
    let r := B.setType TYPE self
    ⟨.ok r.2, r.1, [Call.setType TYPE]⟩

/-- `ForcedValue() : Value() { setType(TYPE); }` (line 26).  Inside the constructor the
call `setType(TYPE)` reaches `ForcedValue::setType`. -/
def ctor (B : Value τ σ H) (TYPE : τ) : Constructed τ σ H :=
  let r := setType B TYPE TYPE B.ctor
  match r.ret with
  | .error e => ⟨.error e, Call.ctor :: r.calls⟩
  | .ok _ => ⟨.ok r.self, Call.ctor :: r.calls⟩

/-- `ForcedValue(const ForcedValue<TYPE> &that) : Value(that) {}` (line 32). -/
def ctorCopy (B : Value τ σ H) (that : σ) : Constructed τ σ H :=
  ⟨.ok (B.ctorCopy that), [Call.ctorCopy]⟩

/-- `ForcedValue(ForcedValue<TYPE> &&that) : Value(std::move(that)) {}` (line 38). -/
def ctorMove (B : Value τ σ H) (that : σ) : MoveConstructed τ σ H :=
  let r := B.ctorMove that
  ⟨.ok r.1, r.2, [Call.ctorMove]⟩

/-- `ForcedValue(const Value &value) : Value(value)` (lines 44-48): the base is copy
constructed first, then the type of `value` is tested. -/
def ctorValue (B : Value τ σ H) (TYPE : τ) (value : σ) : Constructed τ σ H :=
  let base := B.ctorCopy value
  if B.type value ≠ TYPE then
    ⟨.error wrongValueMessage, [Call.ctorCopy]⟩
  else
    ⟨.ok base, [Call.ctorCopy]⟩

/-- `ForcedValue(Value &&value) : Value(std::move(value))` (lines 54-58): the base is move
constructed first, then `value.type()` is read from the argument as the move left it. -/
def ctorValueMove (B : Value τ σ H) (TYPE : τ) (value : σ) : MoveConstructed τ σ H :=
  let r := B.ctorMove value
  if B.type r.2 ≠ TYPE then
    ⟨.error wrongValueMessage, r.2, [Call.ctorMove]⟩
  else
    ⟨.ok r.1, r.2, [Call.ctorMove]⟩

/-- `ForcedValue(struct _zval_struct *zval, bool ref = false) : Value(zval, ref)
{ setType(TYPE); }` (line 65). -/
def ctorZval (B : Value τ σ H) (TYPE : τ) (zval : H) (ref : Bool) : Constructed τ σ H :=
  let r := setType B TYPE TYPE (B.ctorZval zval ref)
  match r.ret with
  | .error e => ⟨.error e, Call.ctorZval zval ref :: r.calls⟩
  | .ok _ => ⟨.ok r.self, Call.ctorZval zval ref :: r.calls⟩

/-- `ForcedValue<TYPE> &operator=(const Value &value)` (lines 90-103). -/
def assign (B : Value τ σ H) (TYPE : τ) (self : σ) (value : Arg σ) : Called τ σ H :=
  match value with
  | .self => ⟨.ok .this, self, []⟩
  | .other v =>
    if B.type v ≠ TYPE then
      ⟨.error wrongValueMessage, self, []⟩
    else
      ⟨.ok .this, B.assign self v, [Call.assign]⟩

/-- `ForcedValue<TYPE> &operator=(Value &&value)` (lines 110-123). -/
def assignMove (B : Value τ σ H) (TYPE : τ) (self : σ) (value : Arg σ) :
    MoveAssigned τ σ H :=
  match value with
  | .self => ⟨.ok .this, self, .self, []⟩
  | .other v =>
    if B.type v ≠ TYPE then
      ⟨.error wrongValueMessage, self, .other v, []⟩
    else
      let r := B.assignMove self v
      ⟨.ok .this, r.1, .other r.2, [Call.assignMove]⟩

/-- `virtual Value &validate() override` (lines 130-137). -/
def validate (B : Value τ σ H) (TYPE : τ) (self : σ) : Called τ σ H :=
  let r := setType B TYPE TYPE self
  match r.ret with
  | .error e => ⟨.error e, r.self, r.calls⟩
  | .ok _ =>
    let v := B.validate r.self
    ⟨.ok v.2, v.1, r.calls ++ [Call.validate]⟩

/-- Constructors of `ForcedValue<TYPE>` with their arguments. -/
inductive Ctor (σ H : Type) where
  | default
  | copy (that : σ)
  | move (that : σ)
  | value (value : σ)
  | valueMove (value : σ)
  | zval (zval : H) (ref : Bool)
  deriving DecidableEq, Repr

/-- Member functions of `ForcedValue<TYPE>` with their arguments. -/
inductive Op (τ σ : Type) where
  | setType (type : τ)
  | assign (value : Arg σ)
  | assignMove (value : Arg σ)
  | validate
  deriving DecidableEq, Repr

/-- Run one constructor: the new object or the raised message. -/
def construct (B : Value τ σ H) (TYPE : τ) : Ctor σ H → Except String σ
  | .default => (ctor B TYPE).self
  | .copy that => (ctorCopy B that).self
  | .move that => (ctorMove B that).self
  | .value v => (ctorValue B TYPE v).self
  | .valueMove v => (ctorValueMove B TYPE v).self
  | .zval z ref => (ctorZval B TYPE z ref).self

/-- Run one member function on an object in state `self`. -/
def step (B : Value τ σ H) (TYPE : τ) (self : σ) : Op τ σ → Called τ σ H
  | .setType t => setType B TYPE t self
  | .assign v => assign B TYPE self v
  | .assignMove v =>
    let r := assignMove B TYPE self v
    ⟨r.ret, r.self, r.calls⟩
  | .validate => validate B TYPE self

end ForcedValue

/-- Modelled from the spec: the enumeration `Type` is declared outside forcedvalue.h; the
spec names the tags array, object and string, `Null` is the tag of an empty value. -/
inductive TypeTag where
  | Null
  | Array
  | Object
  | String
  deriving DecidableEq, Repr

/-- Modelled from the spec: a dynamic value "holding a runtime type tag and an associated
payload"; `struct _zval_struct` is declared outside forcedvalue.h. -/
structure Zval where
  type : TypeTag
  payload : Nat
  deriving DecidableEq, Repr

/-- The empty value. -/
def Zval.null : Zval := ⟨TypeTag.Null, 0⟩

/-- Modelled from the spec: one base class `Value` over `Zval`, used to evaluate the
members on concrete values.  Copies are exact, a move transfers the storage and leaves the
argument empty, the type setter keeps a value that already has the type and otherwise
replaces it by the empty value of that type, `validate` does nothing; the mutators return
`*this`. -/
def zvalValue : Value TypeTag Zval Zval where
  type z := z.type
  ctor := Zval.null
  ctorCopy z := z
  ctorMove z := (z, Zval.null)
  ctorZval z _ := z
  setType t z := (if z.type = t then z else ⟨t, 0⟩, Referent.this)
  assign _ v := v
  assignMove _ v := (v, Zval.null)
  validate z := (z, Referent.this)

namespace Array

/-- `using Array = ForcedValue<Type::Array>;` (line 144): the template argument of the
alias. -/
def TYPE : TypeTag := TypeTag.Array

/-- The default constructor of `Array`, that of `ForcedValue<Type::Array>`. -/
def ctor {σ H : Type} (B : Value TypeTag σ H) : Constructed TypeTag σ H :=
  ForcedValue.ctor B TYPE

end Array

/-- The message of the constructors and assignment operators in the words of the
specification (section 7). -/
def specWrongValueMessage : String := "assigning a wrong value type to a forced-typed variable"

/-- The message of `setType` in the words of the specification (section 7). -/
def specForcedTypeMessage : String := "variable has a forced type"

namespace ForcedValue

variable {τ σ H : Type} [DecidableEq τ]

/-! ## The members unfolded -/

theorem setType_forced (B : Value τ σ H) (T : τ) (s : σ) :
    setType B T T s = ⟨.ok (B.setType T s).2, (B.setType T s).1, [Call.setType T]⟩ := by
  simp [setType]

theorem setType_foreign (B : Value τ σ H) (T U : τ) (s : σ) (h : U ≠ T) :
    setType B T U s = ⟨.error forcedTypeMessage, s, []⟩ := by
  simp [setType, h]

theorem ctorValue_self (B : Value τ σ H) (T : τ) (v : σ) :
    (ctorValue B T v).self
      = if B.type v ≠ T then .error wrongValueMessage else .ok (B.ctorCopy v) := by
  by_cases h : B.type v = T <;> simp [ctorValue, h]

theorem ctorValueMove_self (B : Value τ σ H) (T : τ) (v : σ) :
    (ctorValueMove B T v).self
      = if B.type (B.ctorMove v).2 ≠ T then .error wrongValueMessage
        else .ok (B.ctorMove v).1 := by
  by_cases h : B.type (B.ctorMove v).2 = T <;> simp [ctorValueMove, h]

/-- Move construction from a `Value` raises exactly when the argument, as the base move
constructor left it, does not report `TYPE`. -/
theorem ctorValueMove_raises_iff (B : Value τ σ H) (T : τ) (v : σ) :
    (∃ e, (ctorValueMove B T v).self = .error e) ↔ B.type (B.ctorMove v).2 ≠ T := by
  rw [ctorValueMove_self]
  by_cases h : B.type (B.ctorMove v).2 = T <;> simp [h]

theorem ctor_eq (B : Value τ σ H) (T : τ) :
    ctor B T = ⟨.ok (B.setType T B.ctor).1, [Call.ctor, Call.setType T]⟩ := by
  simp [ctor, setType_forced]

theorem ctorZval_eq (B : Value τ σ H) (T : τ) (z : H) (ref : Bool) :
    ctorZval B T z ref
      = ⟨.ok (B.setType T (B.ctorZval z ref)).1, [Call.ctorZval z ref, Call.setType T]⟩ := by
  simp [ctorZval, setType_forced]

theorem validate_eq (B : Value τ σ H) (T : τ) (s : σ) :
    validate B T s
      = ⟨.ok (B.validate (B.setType T s).1).2, (B.validate (B.setType T s).1).1,
          [Call.setType T, Call.validate]⟩ := by
  simp [validate, setType_forced]

theorem assign_other (B : Value τ σ H) (T : τ) (a v : σ) :
    assign B T a (.other v)
      = if B.type v ≠ T then ⟨.error wrongValueMessage, a, []⟩
        else ⟨.ok .this, B.assign a v, [Call.assign]⟩ := rfl

theorem assignMove_other (B : Value τ σ H) (T : τ) (a v : σ) :
    assignMove B T a (.other v)
      = if B.type v ≠ T then ⟨.error wrongValueMessage, a, .other v, []⟩
        else ⟨.ok .this, (B.assignMove a v).1, .other (B.assignMove a v).2,
                [Call.assignMove]⟩ := rfl

theorem ctorValue_raises_iff (B : Value τ σ H) (T : τ) (v : σ) :
    (∃ e, (ctorValue B T v).self = .error e) ↔ B.type v ≠ T := by
  rw [ctorValue_self]
  by_cases h : B.type v = T <;> simp [h]

theorem assign_raises_iff (B : Value τ σ H) (T : τ) (a v : σ) :
    (∃ e, (assign B T a (.other v)).ret = .error e) ↔ B.type v ≠ T := by
  rw [assign_other]
  by_cases h : B.type v = T <;> simp [h]

theorem assignMove_raises_iff (B : Value τ σ H) (T : τ) (a v : σ) :
    (∃ e, (assignMove B T a (.other v)).ret = .error e) ↔ B.type v ≠ T := by
  rw [assignMove_other]
  by_cases h : B.type v = T <;> simp [h]

theorem construct_error (B : Value τ σ H) (T : τ) (c : Ctor σ H) (e : String)
    (h : construct B T c = .error e) :
    e = wrongValueMessage ∧ ∃ v, c = Ctor.value v ∨ c = Ctor.valueMove v := by
  cases c with
  | default => simp [construct, ctor_eq] at h
  | copy that => simp [construct, ctorCopy] at h
  | move that => simp [construct, ctorMove] at h
  | value v =>
    simp only [construct, ctorValue_self] at h
    by_cases hv : B.type v = T
    · simp [hv] at h
    · simp [hv] at h
      exact ⟨h.symm, v, Or.inl rfl⟩
  | valueMove v =>
    simp only [construct, ctorValueMove_self] at h
    by_cases hv : B.type (B.ctorMove v).2 = T
    · simp [hv] at h
    · simp [hv] at h
      exact ⟨h.symm, v, Or.inr rfl⟩
  | zval z ref => simp [construct, ctorZval_eq] at h

theorem step_error (B : Value τ σ H) (T : τ) (s : σ) (op : Op τ σ) (e : String)
    (h : (step B T s op).ret = .error e) :
    (e = wrongValueMessage ∧ ∃ v, op = Op.assign (.other v) ∨ op = Op.assignMove (.other v)) ∨
    (e = forcedTypeMessage ∧ ∃ t, t ≠ T ∧ op = Op.setType t) := by
  cases op with
  | setType t =>
    by_cases ht : t = T
    · subst ht
      simp [step, setType_forced] at h
    · simp [step, setType_foreign B T t s ht] at h
      exact Or.inr ⟨h.symm, t, ht, rfl⟩
  | assign arg =>
    cases arg with
    | self => simp [step, assign] at h
    | other v =>
      simp only [step, assign_other] at h
      by_cases hv : B.type v = T
      · simp [hv] at h
      · simp [hv] at h
        exact Or.inl ⟨h.symm, v, Or.inl rfl⟩
  | assignMove arg =>
    cases arg with
    | self => simp [step, assignMove] at h
    | other v =>
      simp only [step, assignMove_other] at h
      by_cases hv : B.type v = T
      · simp [hv] at h
      · simp [hv] at h
        exact Or.inl ⟨h.symm, v, Or.inr rfl⟩
  | validate => simp [step, validate_eq] at h

/-! ## The concrete base classes -/

theorem zvalValue_setType_type (T : TypeTag) (x : Zval) :
    zvalValue.type (zvalValue.setType T x).1 = T := by
  by_cases h : x.type = T <;> simp [zvalValue, h]

/-- C2: `ForcedValue<T>(const Value &v)` raises if and only if `v.type() != T`.  When
`v.type() == T` the constructed object is the base copy of `v`, so whatever the base copy
keeps of `v` (its type, its payload) the object has, and its type is `T` once the base copy
keeps the type.  When it raises, the outcome is the exception alone: no object. -/
theorem ctorValue_raises_iff_wrong_type (B : Value τ σ H) (T : τ) (v : σ) :
    ((∃ e, (ctorValue B T v).self = .error e) ↔ B.type v ≠ T) ∧
    (B.type v = T →
      (ctorValue B T v).self = .ok (B.ctorCopy v) ∧
      (B.type (B.ctorCopy v) = B.type v → B.type (B.ctorCopy v) = T) ∧
      ∀ (α : Type) (obs : σ → α), obs (B.ctorCopy v) = obs v →
        ∃ s, (ctorValue B T v).self = .ok s ∧ obs s = obs v) ∧
    (B.type v ≠ T → (ctorValue B T v).self = .error wrongValueMessage) := by
  rw [ctorValue_self]
  by_cases h : B.type v = T
  · simp [h]
  · simp [h]

/-- C2 at a concrete input: an array value is accepted by `ForcedValue<Array>` and copied,
a string value is rejected. -/
theorem ctorValue_raises_iff_wrong_type_witness :
    (ctorValue zvalValue TypeTag.Array ⟨TypeTag.Array, 7⟩).self = .ok ⟨TypeTag.Array, 7⟩ ∧
    (ctorValue zvalValue TypeTag.Array ⟨TypeTag.String, 7⟩).self
      = .error wrongValueMessage :=
  ⟨((ctorValue_raises_iff_wrong_type zvalValue TypeTag.Array ⟨TypeTag.Array, 7⟩).2.1 rfl).1,
   (ctorValue_raises_iff_wrong_type zvalValue TypeTag.Array ⟨TypeTag.String, 7⟩).2.2
     (by decide)⟩

/-- C3: with a base class whose move constructor leaves its argument empty, move
constructing a `ForcedValue<Array>` from an array value raises, although copy constructing
from the same value succeeds: line 57 reads `value.type()` after line 54 has moved from
`value`. -/
theorem ctorValueMove_rejects_value_of_forced_type :
    zvalValue.type ⟨TypeTag.Array, 7⟩ = TypeTag.Array ∧
    (ctorValue zvalValue TypeTag.Array ⟨TypeTag.Array, 7⟩).self = .ok ⟨TypeTag.Array, 7⟩ ∧
    (ctorValueMove zvalValue TypeTag.Array ⟨TypeTag.Array, 7⟩).self
      = .error wrongValueMessage ∧
    (ctorValueMove zvalValue TypeTag.Array ⟨TypeTag.Array, 7⟩).value = Zval.null ∧
    (ctorValueMove zvalValue TypeTag.Array ⟨TypeTag.Array, 7⟩).calls = [Call.ctorMove] := by
  refine ⟨rfl, ?_, ?_, rfl, rfl⟩
  · rw [ctorValue_self]; rfl
  · rw [ctorValueMove_self]; rfl

/-! ## Assignment -/

/-- C4: for a target in state `a` and a different value `v` with `v.type() != T`, `a = v`
raises the type-constraint error, the state of the target is exactly `a`, and the base
assignment has not been invoked. -/
theorem assign_rejection_leaves_target (B : Value τ σ H) (T : τ) (a v : σ)
    (h : B.type v ≠ T) :
    (assign B T a (.other v)).ret = .error wrongValueMessage ∧
    (assign B T a (.other v)).self = a ∧
    (assign B T a (.other v)).calls = [] := by
  simp [assign_other, h]

/-- C4 at a concrete input: assigning a string value to a `ForcedValue<Array>`. -/
theorem assign_rejection_leaves_target_witness :
    zvalValue.type ⟨TypeTag.String, 5⟩ ≠ TypeTag.Array ∧
    (assign zvalValue TypeTag.Array ⟨TypeTag.Array, 3⟩ (.other ⟨TypeTag.String, 5⟩)).ret
      = .error wrongValueMessage ∧
    (assign zvalValue TypeTag.Array ⟨TypeTag.Array, 3⟩ (.other ⟨TypeTag.String, 5⟩)).self
      = ⟨TypeTag.Array, 3⟩ ∧
    (assign zvalValue TypeTag.Array ⟨TypeTag.Array, 3⟩ (.other ⟨TypeTag.String, 5⟩)).calls
      = [] :=
  ⟨by decide,
   assign_rejection_leaves_target zvalValue TypeTag.Array ⟨TypeTag.Array, 3⟩
     ⟨TypeTag.String, 5⟩ (by decide)⟩

/-- C5: for a target in state `a` and a different value `v` with `v.type() == T`, `a = v`
does not raise, returns `*this`, and leaves the target in the state the base assignment of
`v` to `a` gives, the base assignment being the only base member invoked. -/
theorem assign_acceptance_delegates (B : Value τ σ H) (T : τ) (a v : σ)
    (h : B.type v = T) :
    (assign B T a (.other v)).ret = .ok Referent.this ∧
    (assign B T a (.other v)).self = B.assign a v ∧
    (assign B T a (.other v)).calls = [Call.assign] := by
  simp [assign_other, h]

/-- C5 at a concrete input: assigning an array value to a `ForcedValue<Array>`. -/
theorem assign_acceptance_delegates_witness :
    zvalValue.type ⟨TypeTag.Array, 5⟩ = TypeTag.Array ∧
    (assign zvalValue TypeTag.Array ⟨TypeTag.Array, 3⟩ (.other ⟨TypeTag.Array, 5⟩)).ret
      = .ok Referent.this ∧
    (assign zvalValue TypeTag.Array ⟨TypeTag.Array, 3⟩ (.other ⟨TypeTag.Array, 5⟩)).self
      = zvalValue.assign ⟨TypeTag.Array, 3⟩ ⟨TypeTag.Array, 5⟩ ∧
    (assign zvalValue TypeTag.Array ⟨TypeTag.Array, 3⟩ (.other ⟨TypeTag.Array, 5⟩)).calls
      = [Call.assign] :=
  ⟨rfl,
   assign_acceptance_delegates zvalValue TypeTag.Array ⟨TypeTag.Array, 3⟩
     ⟨TypeTag.Array, 5⟩ rfl⟩

/-- C6: the move assignment validates as the copy assignment does.  For every target state
`a` and every argument (the target itself or another value), `a = std::move(v)` raises
exactly when `a = v` raises, which is exactly when `v` is another value with
`v.type() != T`; when it raises, the target and the argument are as before and no base
member has been invoked; when `v` is another value with `v.type() == T`, the target and the
argument are what the base move assignment makes of them and `*this` is returned. -/
theorem assignMove_validates_as_assign (B : Value τ σ H) (T : τ) (a : σ) (arg : Arg σ) :
    ((∃ e, (assignMove B T a arg).ret = .error e) ↔ ∃ e, (assign B T a arg).ret = .error e) ∧
    ((∃ e, (assignMove B T a arg).ret = .error e) ↔ ∃ v, arg = .other v ∧ B.type v ≠ T) ∧
    (∀ e, (assignMove B T a arg).ret = .error e →
      e = wrongValueMessage ∧ (assignMove B T a arg).self = a ∧
      (assignMove B T a arg).value = arg ∧ (assignMove B T a arg).calls = []) ∧
    (∀ v, arg = .other v → B.type v = T →
      (assignMove B T a arg).ret = .ok Referent.this ∧
      (assignMove B T a arg).self = (B.assignMove a v).1 ∧
      (assignMove B T a arg).value = .other (B.assignMove a v).2 ∧
      (assignMove B T a arg).calls = [Call.assignMove]) := by
  cases arg with
  | self => simp [assignMove, assign]
  | other w =>
    rw [assignMove_other, assign_other]
    by_cases h : B.type w = T
    · simp [h]
    · simp [h]

/-- C7: assigning an object to itself, through the copy or through the move assignment
operator, returns `*this` without raising, invokes no member of the base class, and leaves
the state of the object as it was. -/
theorem self_assignment_does_nothing (B : Value τ σ H) (T : τ) (a : σ) :
    ((assign B T a .self).ret = .ok Referent.this ∧
      (assign B T a .self).self = a ∧
      (assign B T a .self).calls = []) ∧
    ((assignMove B T a .self).ret = .ok Referent.this ∧
      (assignMove B T a .self).self = a ∧
      (assignMove B T a .self).value = .self ∧
      (assignMove B T a .self).calls = []) :=
  ⟨⟨rfl, rfl, rfl⟩, ⟨rfl, rfl, rfl, rfl⟩⟩

/-! ## `setType` -/

/-- C8: for `U != T` and every state of the object, `setType(U)` raises the
type-constraint error, leaves the state as it was and does not invoke the base
`setType`. -/
theorem setType_rejects_other_type (B : Value τ σ H) (T U : τ) (s : σ) (h : U ≠ T) :
    (setType B T U s).ret = .error forcedTypeMessage ∧
    (setType B T U s).self = s ∧
    (setType B T U s).calls = [] := by
  simp [setType_foreign B T U s h]

/-- C8 at a concrete input: `setType(Object)` on a `ForcedValue<Array>`. -/
theorem setType_rejects_other_type_witness :
    TypeTag.Object ≠ TypeTag.Array ∧
    (setType zvalValue TypeTag.Array TypeTag.Object ⟨TypeTag.Array, 3⟩).ret
      = .error forcedTypeMessage ∧
    (setType zvalValue TypeTag.Array TypeTag.Object ⟨TypeTag.Array, 3⟩).self
      = ⟨TypeTag.Array, 3⟩ ∧
    (setType zvalValue TypeTag.Array TypeTag.Object ⟨TypeTag.Array, 3⟩).calls = [] :=
  ⟨by decide,
   setType_rejects_other_type zvalValue TypeTag.Array TypeTag.Object ⟨TypeTag.Array, 3⟩
     (by decide)⟩

/-- C9: on an object whose type is `T`, `setType(T)` does not raise, invokes the base
`setType(T)` once and returns what it returns, and the type afterwards is `T`; a second
`setType(T)` gives the same outcome as the first.  The base `setType` is taken to leave a
value that already has the type as it is (`hnoop`) and, on this object, to return the object
it was invoked on (`hret`). -/
theorem setType_forced_type_idempotent (B : Value τ σ H) (T : τ) (s : σ)
    (hT : B.type s = T)
    (hnoop : ∀ x, B.type x = T → (B.setType T x).1 = x)
    (hret : (B.setType T s).2 = Referent.this) :
    (setType B T T s).ret = .ok Referent.this ∧
    (setType B T T s).calls = [Call.setType T] ∧
    B.type (setType B T T s).self = T ∧
    (setType B T T s).self = s ∧
    setType B T T (setType B T T s).self = setType B T T s := by
  simp [setType_forced, hnoop s hT, hret, hT]

/-- C9 at a concrete input: `setType(Array)` on a `ForcedValue<Array>` holding an array. -/
theorem setType_forced_type_idempotent_witness :
    zvalValue.type ⟨TypeTag.Array, 3⟩ = TypeTag.Array ∧
    (setType zvalValue TypeTag.Array TypeTag.Array ⟨TypeTag.Array, 3⟩).ret
      = .ok Referent.this ∧
    (setType zvalValue TypeTag.Array TypeTag.Array ⟨TypeTag.Array, 3⟩).self
      = ⟨TypeTag.Array, 3⟩ :=
  have h := setType_forced_type_idempotent zvalValue TypeTag.Array ⟨TypeTag.Array, 3⟩ rfl
    (fun x hx => by simp [zvalValue] at hx ⊢; exact fun hne => absurd hx hne)
    rfl
  ⟨rfl, h.1, h.2.2.2.1⟩

/-! ## Construction from a native handle -/

/-- C10: for every handle and either value of the reference flag,
`ForcedValue<T>(zval, ref)` does not raise; the object is the base-wrapped handle passed
through the base `setType(T)`, its type is `T` whenever the base `setType(T)` leaves a
value with type `T`, and so it is not the type `U != T` the wrapped handle had. -/
theorem ctorZval_forces_type (B : Value τ σ H) (T : τ) (z : H) (ref : Bool)
    (hset : ∀ x, B.type (B.setType T x).1 = T) :
    ∃ s, (ctorZval B T z ref).self = .ok s ∧
      s = (B.setType T (B.ctorZval z ref)).1 ∧
      B.type s = T ∧
      (∀ U, B.type (B.ctorZval z ref) = U → U ≠ T → B.type s ≠ U) ∧
      (ctorZval B T z ref).calls = [Call.ctorZval z ref, Call.setType T] := by
  refine ⟨(B.setType T (B.ctorZval z ref)).1, ?_, rfl, hset _, ?_, ?_⟩
  · rw [ctorZval_eq]
  · intro U _ hU
    rw [hset]
    exact fun h => hU h.symm
  · rw [ctorZval_eq]

/-- C10 at a concrete input: wrapping a handle that holds a string in a
`ForcedValue<Array>`. -/
theorem ctorZval_forces_type_witness :
    zvalValue.type (zvalValue.ctorZval ⟨TypeTag.String, 3⟩ true) = TypeTag.String ∧
    ∃ s, (ctorZval zvalValue TypeTag.Array ⟨TypeTag.String, 3⟩ true).self = .ok s ∧
      zvalValue.type s = TypeTag.Array :=
  have h := ctorZval_forces_type zvalValue TypeTag.Array ⟨TypeTag.String, 3⟩ true
    (zvalValue_setType_type TypeTag.Array)
  ⟨rfl, h.elim fun s hs => ⟨s, hs.1, hs.2.2.1⟩⟩

/-! ## The invariant -/

/-- C11: for every type tag `T`, default constructing `ForcedValue<T>` does not raise; the
object is the base default value passed through the base `setType(T)`, and its type is `T`
whenever the base `setType(T)` leaves a value with type `T`.  In particular a default
constructed `Array`, the alias of `ForcedValue<Type::Array>`, has type `Array`. -/
theorem ctor_forces_type (B : Value τ σ H) (T : τ)
    (hset : ∀ x, B.type (B.setType T x).1 = T)
    (A : Value TypeTag σ H)
    (hsetA : ∀ x, A.type (A.setType TypeTag.Array x).1 = TypeTag.Array) :
    (∃ s, (ctor B T).self = .ok s ∧ s = (B.setType T B.ctor).1 ∧ B.type s = T) ∧
    (ctor B T).calls = [Call.ctor, Call.setType T] ∧
    (∃ s, (Array.ctor A).self = .ok s ∧ s = (A.setType TypeTag.Array A.ctor).1 ∧
      A.type s = TypeTag.Array) := by
  refine ⟨⟨_, ?_, rfl, hset _⟩, ?_, ⟨_, ?_, rfl, hsetA _⟩⟩
  · rw [ctor_eq]
  · rw [ctor_eq]
  · rw [Array.ctor, Array.TYPE, ctor_eq]

/-- C11 at a concrete input: a default constructed `ForcedValue<Object>` and a default
constructed `Array` over the base class `zvalValue`, whose default value has type `Null`. -/
theorem ctor_forces_type_witness :
    zvalValue.type zvalValue.ctor = TypeTag.Null ∧
    (∃ s, (ctor zvalValue TypeTag.Object).self = .ok s ∧ zvalValue.type s = TypeTag.Object) ∧
    (∃ s, (Array.ctor zvalValue).self = .ok s ∧ zvalValue.type s = TypeTag.Array) :=
  have h := ctor_forces_type zvalValue TypeTag.Object (zvalValue_setType_type TypeTag.Object)
    zvalValue (zvalValue_setType_type TypeTag.Array)
  ⟨rfl, h.1.elim fun s hs => ⟨s, hs.1, hs.2.2⟩, h.2.2.elim fun s hs => ⟨s, hs.1, hs.2.2⟩⟩

/-! ## `validate` -/

/-- C12: in every state of the object, also one whose type is not `T`, `validate()` does not
raise; it invokes the base `setType(T)` and then the base `validate()`, the state
afterwards and the returned reference being those the base `validate()` gives on the state
the base `setType(T)` left. -/
theorem validate_forces_then_defers (B : Value τ σ H) (T : τ) (s : σ) :
    (validate B T s).ret = .ok (B.validate (B.setType T s).1).2 ∧
    (validate B T s).self = (B.validate (B.setType T s).1).1 ∧
    (validate B T s).calls = [Call.setType T, Call.validate] := by
  rw [validate_eq]
  exact ⟨rfl, rfl, rfl⟩

/-! ## Construction from a `ForcedValue` -/

/-- C13: copy and move construction from another `ForcedValue<T>` do not raise and test
no type: whatever the state of the source, the new object is the base copy (the base move)
of it, the base constructor being the only base member invoked.  So when the source has
type `T` and the base constructor gives the new object the type of the source, the new
object has type `T`. -/
theorem ctorCopy_ctorMove_are_base (B : Value τ σ H) (T : τ) (that : σ) :
    ((ctorCopy B that).self = .ok (B.ctorCopy that) ∧
      (ctorCopy B that).calls = [Call.ctorCopy]) ∧
    ((ctorMove B that).self = .ok (B.ctorMove that).1 ∧
      (ctorMove B that).value = (B.ctorMove that).2 ∧
      (ctorMove B that).calls = [Call.ctorMove]) ∧
    (B.type that = T → B.type (B.ctorCopy that) = B.type that →
      ∃ s, (ctorCopy B that).self = .ok s ∧ B.type s = T) ∧
    (B.type that = T → B.type (B.ctorMove that).1 = B.type that →
      ∃ s, (ctorMove B that).self = .ok s ∧ B.type s = T) :=
  ⟨⟨rfl, rfl⟩, ⟨rfl, rfl, rfl⟩,
   fun hT hc => ⟨_, rfl, hc.trans hT⟩,
   fun hT hm => ⟨_, rfl, hm.trans hT⟩⟩

/-- C13 at a concrete input: copying and moving from a `ForcedValue<Array>` holding an
array. -/
theorem ctorCopy_ctorMove_are_base_witness :
    zvalValue.type ⟨TypeTag.Array, 4⟩ = TypeTag.Array ∧
    (∃ s, (ctorCopy zvalValue (⟨TypeTag.Array, 4⟩ : Zval)).self = .ok s ∧
      zvalValue.type s = TypeTag.Array) ∧
    (∃ s, (ctorMove zvalValue (⟨TypeTag.Array, 4⟩ : Zval)).self = .ok s ∧
      zvalValue.type s = TypeTag.Array) :=
  have h := ctorCopy_ctorMove_are_base zvalValue TypeTag.Array ⟨TypeTag.Array, 4⟩
  ⟨rfl, h.2.2.1 rfl rfl, h.2.2.2 rfl rfl⟩

/-! ## Messages -/

/-- C14, as stated, fails: the message a constructor raises for a value of the wrong type
is "Assiging a wrong value type to a forced typed variable" and the message `setType`
raises is "Variable has a forced type"; neither is the text the claim quotes. -/
theorem messages_are_not_the_quoted_ones :
    ((ctorValue zvalValue TypeTag.Array ⟨TypeTag.String, 7⟩).self
        = .error "Assiging a wrong value type to a forced typed variable" ∧
      (ctorValue zvalValue TypeTag.Array ⟨TypeTag.String, 7⟩).self
        ≠ .error specWrongValueMessage) ∧
    ((setType zvalValue TypeTag.Array TypeTag.Object ⟨TypeTag.Array, 3⟩).ret
        = .error "Variable has a forced type" ∧
      (setType zvalValue TypeTag.Array TypeTag.Object ⟨TypeTag.Array, 3⟩).ret
        ≠ .error specForcedTypeMessage) := by
  have h1 : (ctorValue zvalValue TypeTag.Array ⟨TypeTag.String, 7⟩).self
      = .error wrongValueMessage := by
    rw [ctorValue_self]; rfl
  have h2 : (setType zvalValue TypeTag.Array TypeTag.Object ⟨TypeTag.Array, 3⟩).ret
      = .error forcedTypeMessage := by
    rw [setType_foreign _ _ _ _ (by decide)]
  refine ⟨⟨h1, ?_⟩, ⟨h2, ?_⟩⟩
  · rw [h1]
    intro h
    injection h with h
    exact absurd h (by decide)
  · rw [h2]
    intro h
    injection h with h
    exact absurd h (by decide)

/-- C14, amended: an exception leaving a constructor leaves a constructor from a `Value`
and one leaving a member function leaves an assignment from another value or a `setType(t)`
with `t != T`; the constructors and the assignment operators all raise one and the same
message, which ends in " a wrong value type to a forced typed variable"; `setType` raises
"Variable has a forced type", a different message; nothing else is raised. -/
theorem messages_by_operation (B : Value τ σ H) (T : τ) :
    (∀ c e, construct B T c = .error e →
      e = wrongValueMessage ∧ ∃ v, c = Ctor.value v ∨ c = Ctor.valueMove v) ∧
    (∀ s op e, (step B T s op).ret = .error e →
      (e = wrongValueMessage ∧
        ∃ v, op = Op.assign (.other v) ∨ op = Op.assignMove (.other v)) ∨
      (e = forcedTypeMessage ∧ ∃ t, t ≠ T ∧ op = Op.setType t)) ∧
    (∃ w, wrongValueMessage = w ++ " a wrong value type to a forced typed variable") ∧
    forcedTypeMessage = "Variable has a forced type" ∧
    wrongValueMessage ≠ forcedTypeMessage :=
  ⟨construct_error B T, step_error B T, ⟨"Assiging", by decide⟩, rfl, by decide⟩

/-! ## Calls of the base `setType` -/

/-- C15: whatever the operation and its input, the base `Value::setType` is only ever
invoked with `T`.  The default constructor, the constructor from a handle and `validate`
invoke it once, with `T`; `setType(u)` invokes it once, with `T`, when `u == T` and not at
all otherwise; the other constructors and the assignment operators do not invoke it. -/
theorem base_setType_only_with_forced_type (B : Value τ σ H) (T : τ) (t : τ) :
    ((Call.setType t ∈ (ctor B T).calls → t = T) ∧
      (∀ z ref, Call.setType t ∈ (ctorZval B T z ref).calls → t = T) ∧
      (∀ u s, Call.setType t ∈ (setType B T u s).calls → t = T) ∧
      (∀ s, Call.setType t ∈ (validate B T s).calls → t = T)) ∧
    ((ctor B T).calls = [Call.ctor, Call.setType T] ∧
      (∀ z ref, (ctorZval B T z ref).calls = [Call.ctorZval z ref, Call.setType T]) ∧
      (∀ s, (setType B T T s).calls = [Call.setType T]) ∧
      (∀ u s, u ≠ T → (setType B T u s).calls = []) ∧
      (∀ s, (validate B T s).calls = [Call.setType T, Call.validate])) ∧
    ((∀ that, Call.setType t ∉ (ctorCopy B that).calls) ∧
      (∀ that, Call.setType t ∉ (ctorMove B that).calls) ∧
      (∀ v, Call.setType t ∉ (ctorValue B T v).calls) ∧
      (∀ v, Call.setType t ∉ (ctorValueMove B T v).calls) ∧
      (∀ a arg, Call.setType t ∉ (assign B T a arg).calls) ∧
      (∀ a arg, Call.setType t ∉ (assignMove B T a arg).calls)) := by
  refine ⟨⟨?_, ?_, ?_, ?_⟩, ⟨?_, ?_, ?_, ?_, ?_⟩, ⟨?_, ?_, ?_, ?_, ?_, ?_⟩⟩
  · intro h
    simpa [ctor_eq] using h
  · intro z ref h
    simpa [ctorZval_eq] using h
  · intro u s h
    by_cases hu : u = T
    · subst hu
      simpa [setType_forced] using h
    · simp [setType_foreign B T u s hu] at h
  · intro s h
    simpa [validate_eq] using h
  · rw [ctor_eq]
  · intro z ref
    rw [ctorZval_eq]
  · intro s
    rw [setType_forced]
  · intro u s hu
    rw [setType_foreign B T u s hu]
  · intro s
    rw [validate_eq]
  · intro that
    simp [ctorCopy]
  · intro that
    simp [ctorMove]
  · intro v
    by_cases hv : B.type v = T <;> simp [ctorValue, hv]
  · intro v
    by_cases hv : B.type (B.ctorMove v).2 = T <;> simp [ctorValueMove, hv]
  · intro a arg
    cases arg with
    | self => simp [assign]
    | other v => by_cases hv : B.type v = T <;> simp [assign_other, hv]
  · intro a arg
    cases arg with
    | self => simp [assignMove]
    | other v => by_cases hv : B.type v = T <;> simp [assignMove_other, hv]

/-! ## What acceptance depends on -/

/-- C16: for two values of the same type, whatever their payloads, copy construction from
the one raises if and only if copy construction from the other does, and assigning the one
to a target in any state `a1` raises if and only if assigning the other to a target in any
state `a2` does, for the copy and for the move assignment: whether a value other than the
target is accepted depends on the type of that value alone. -/
theorem acceptance_depends_on_type_only (B : Value τ σ H) (T : τ) (v1 v2 : σ)
    (h : B.type v1 = B.type v2) (a1 a2 : σ) :
    ((∃ e, (ctorValue B T v1).self = .error e) ↔ ∃ e, (ctorValue B T v2).self = .error e) ∧
    ((∃ e, (assign B T a1 (.other v1)).ret = .error e) ↔
      ∃ e, (assign B T a2 (.other v2)).ret = .error e) ∧
    ((∃ e, (assignMove B T a1 (.other v1)).ret = .error e) ↔
      ∃ e, (assignMove B T a2 (.other v2)).ret = .error e) := by
  refine ⟨?_, ?_, ?_⟩
  · rw [ctorValue_raises_iff, ctorValue_raises_iff, h]
  · rw [assign_raises_iff, assign_raises_iff, h]
  · rw [assignMove_raises_iff, assignMove_raises_iff, h]

/-- C16 at a concrete input: two strings with different payloads, offered to
`ForcedValue<Array>` targets in different states. -/
theorem acceptance_depends_on_type_only_witness :
    zvalValue.type ⟨TypeTag.String, 1⟩ = zvalValue.type ⟨TypeTag.String, 2⟩ ∧
    ((∃ e, (ctorValue zvalValue TypeTag.Array ⟨TypeTag.String, 1⟩).self = .error e) ↔
      ∃ e, (ctorValue zvalValue TypeTag.Array ⟨TypeTag.String, 2⟩).self = .error e) ∧
    ((∃ e, (assign zvalValue TypeTag.Array ⟨TypeTag.Array, 3⟩
        (.other ⟨TypeTag.String, 1⟩)).ret = .error e) ↔
      ∃ e, (assign zvalValue TypeTag.Array ⟨TypeTag.Array, 4⟩
        (.other ⟨TypeTag.String, 2⟩)).ret = .error e) ∧
    ((∃ e, (assignMove zvalValue TypeTag.Array ⟨TypeTag.Array, 3⟩
        (.other ⟨TypeTag.String, 1⟩)).ret = .error e) ↔
      ∃ e, (assignMove zvalValue TypeTag.Array ⟨TypeTag.Array, 4⟩
        (.other ⟨TypeTag.String, 2⟩)).ret = .error e) :=
  ⟨rfl,
   acceptance_depends_on_type_only zvalValue TypeTag.Array ⟨TypeTag.String, 1⟩
     ⟨TypeTag.String, 2⟩ rfl ⟨TypeTag.Array, 3⟩ ⟨TypeTag.Array, 4⟩⟩

end ForcedValue

end Php
